import Mathlib

/-!
Shallow embedding of the webhook notification fan-out function
(`supabase/functions/send-webhook-notification/index.ts`) of the
thittam-web repository, together with theorems settling the spec claims.

The handler is modelled as a pure function from the parsed request
payload, a snapshot of the `workspace_integrations` table, the behaviour
of the persistence collaborator (query error / null data), and the
behaviour of the network (one `NetResult` per integration) to the HTTP
response plus an observable trace of side effects (the workspace lookups
performed and the outbound dispatches issued).  Clock reads
(`new Date().toISOString()`) are modelled by a `now : String` parameter.
-/

namespace ThittamWebhook

/-- The optional `metadata` bag of a webhook payload (`WebhookPayload.metadata`
in the source); every field is optional. -/
structure Metadata where
  task_id : Option String
  channel_id : Option String
  sender_name : Option String
  due_date : Option String
  priority : Option String
  url : Option String
deriving DecidableEq, Repr

/-- A metadata object with every field absent. -/
def Metadata.empty : Metadata :=
  { task_id := none, channel_id := none, sender_name := none,
    due_date := none, priority := none, url := none }

/-- The parsed request body (`WebhookPayload` in the source).  Required
string fields are modelled as `String`, where `""` stands for a missing,
null or empty value (all of which are falsy under the source's
`!payload.field` checks). -/
structure WebhookPayload where
  workspace_id : String
  notification_type : String
  title : String
  message : String
  metadata : Option Metadata
deriving DecidableEq, Repr

/-- A row of the `workspace_integrations` table.  The source's `Integration`
interface carries `id, platform, webhook_url, notification_types`; the
`workspace_id` and `is_active` columns are part of the persisted row and are
used by the database query's `.eq` filters. -/
structure Integration where
  id : String
  workspace_id : String
  platform : String
  webhook_url : String
  notification_types : List String
  is_active : Bool
deriving DecidableEq, Repr

/-- Source `getColorForType`: notification type to Discord embed color
(integer). -/
def getColorForType (ty : String) : Nat :=
  if ty = "broadcast" then 0x3B82F6
  else if ty = "task_assignment" then 0x10B981
  else if ty = "deadline_reminder" then 0xF59E0B
  else 0x6B7280

/-- Source `getColorHexForType`: notification type to Teams theme color
(hex string). -/
def getColorHexForType (ty : String) : String :=
  if ty = "broadcast" then "3B82F6"
  else if ty = "task_assignment" then "10B981"
  else if ty = "deadline_reminder" then "F59E0B"
  else "6B7280"

/-- Uppercase hexadecimal digit for a value below 16. -/
def hexDigitChar (n : Nat) : Char :=
  if n < 10 then Char.ofNat (48 + n) else Char.ofNat (55 + n)

/-- Accumulate the uppercase hexadecimal digits of `n` (most significant
first) in front of `acc`. -/
def natToHexAux (n : Nat) (acc : List Char) : List Char :=
  if h : n = 0 then acc
  else natToHexAux (n / 16) (hexDigitChar (n % 16) :: acc)
termination_by n
decreasing_by exact Nat.div_lt_self (Nat.pos_of_ne_zero h) (by omega)

/-- Uppercase hexadecimal rendering of a natural number. -/
def natToHex (n : Nat) : String :=
  if n = 0 then "0" else String.mk (natToHexAux n [])

/-- A Slack block-kit block as built by `formatSlackMessage`: a header
block, a markdown section block, or an actions block holding one button. -/
inductive SlackBlock where
  | header (text : String) (emoji : Bool)
  | section (text : String)
  | actions (buttonText : String) (url : String)
deriving DecidableEq, Repr

/-- The value returned by `formatSlackMessage`: blocks plus a flattened
`text` fallback. -/
structure SlackMessage where
  blocks : List SlackBlock
  text : String
deriving DecidableEq, Repr

/-- Source `formatSlackMessage`: header block with the title, section block
with the message, and an actions block with a "View in App" button only when
`metadata.url` is present. -/
def formatSlackMessage (p : WebhookPayload) : SlackMessage :=
  let blocks := [SlackBlock.header p.title true, SlackBlock.section p.message]
  let blocks :=
    match p.metadata.bind Metadata.url with
    | some u => blocks ++ [SlackBlock.actions "View in App" u]
    | none => blocks
  { blocks := blocks, text := p.title ++ ": " ++ p.message }

/-- One entry of a Discord embed's `fields` array. -/
structure DiscordField where
  name : String
  value : String
  inline : Bool
deriving DecidableEq, Repr

/-- A Discord embed as built by `formatDiscordMessage`; `author`, `url` and
`fields` are attached only conditionally in the source, hence `Option`. -/
structure DiscordEmbed where
  title : String
  description : String
  color : Nat
  timestamp : String
  author : Option String
  url : Option String
  fields : Option (List DiscordField)
deriving DecidableEq, Repr

/-- The value returned by `formatDiscordMessage`: `{ embeds: [embed] }`. -/
structure DiscordMessage where
  embeds : List DiscordEmbed
deriving DecidableEq, Repr

/-- Source `formatDiscordMessage`: embed with title, description = message,
color from `getColorForType`, formatting-time timestamp; `author` from
`metadata.sender_name` when present, `url` from `metadata.url` when present,
and a `fields` array (Priority and/or Due Date) only when nonempty. -/
def formatDiscordMessage (now : String) (p : WebhookPayload) : DiscordMessage :=
  let fields :=
    (match p.metadata.bind Metadata.priority with
     | some pr => [{ name := "Priority", value := pr, inline := true : DiscordField }]
     | none => []) ++
    (match p.metadata.bind Metadata.due_date with
     | some d => [{ name := "Due Date", value := d, inline := true : DiscordField }]
     | none => [])
  let embed : DiscordEmbed :=
    { title := p.title, description := p.message,
      color := getColorForType p.notification_type, timestamp := now,
      author := p.metadata.bind Metadata.sender_name,
      url := p.metadata.bind Metadata.url,
      fields := if fields.length > 0 then some fields else none }
  { embeds := [embed] }

/-- One section of a Teams MessageCard. -/
structure TeamsSection where
  activityTitle : String
  activitySubtitle : String
  text : String
deriving DecidableEq, Repr

/-- One `OpenUri` potential action of a Teams MessageCard. -/
structure TeamsAction where
  name : String
  uri : String
deriving DecidableEq, Repr

/-- A Teams MessageCard as built by `formatTeamsMessage`; `potentialAction`
is attached only when `metadata.url` is present. -/
structure TeamsCard where
  atType : String
  atContext : String
  themeColor : String
  summary : String
  sections : List TeamsSection
  potentialAction : Option (List TeamsAction)
deriving DecidableEq, Repr

/-- Source `formatTeamsMessage`: MessageCard with theme color from
`getColorHexForType`, summary = title, one section whose subtitle falls back
to "System", and an `OpenUri` action only when `metadata.url` is present. -/
def formatTeamsMessage (p : WebhookPayload) : TeamsCard :=
  let sec : TeamsSection :=
    { activityTitle := p.title,
      activitySubtitle := (p.metadata.bind Metadata.sender_name).getD "System",
      text := p.message }
  { atType := "MessageCard", atContext := "http://schema.org/extensions",
    themeColor := getColorHexForType p.notification_type,
    summary := p.title,
    sections := [sec],
    potentialAction :=
      match p.metadata.bind Metadata.url with
      | some u => some [{ name := "View in App", uri := u }]
      | none => none }

/-- The flat envelope returned by `formatGenericWebhook`. -/
structure GenericPayload where
  type : String
  title : String
  message : String
  metadata : Option Metadata
  timestamp : String
deriving DecidableEq, Repr

/-- Source `formatGenericWebhook`: flat envelope with the notification type,
title, message, metadata and a formatting-time timestamp. -/
def formatGenericWebhook (now : String) (p : WebhookPayload) : GenericPayload :=
  { type := p.notification_type, title := p.title, message := p.message,
    metadata := p.metadata, timestamp := now }

/-- The platform-specific body sent on a dispatch. -/
inductive FormattedBody where
  | slack (m : SlackMessage)
  | discord (m : DiscordMessage)
  | teams (m : TeamsCard)
  | generic (m : GenericPayload)
deriving DecidableEq, Repr

/-- The `switch (integration.platform)` of the dispatch loop: slack, discord
and teams get their dedicated formatter; every other platform falls through
to the generic webhook formatter. -/
def formatForPlatform (now : String) (p : WebhookPayload) (i : Integration) :
    FormattedBody :=
  if i.platform = "slack" then .slack (formatSlackMessage p)
  else if i.platform = "discord" then .discord (formatDiscordMessage now p)
  else if i.platform = "teams" then .teams (formatTeamsMessage p)
  else .generic (formatGenericWebhook now p)

/-- Outcome of the outbound `fetch` for one integration: an HTTP response
with a status and body text, or a network-level error with a message. -/
inductive NetResult where
  | httpResponse (status : Nat) (bodyText : String)
  | networkError (message : String)
deriving DecidableEq, Repr

/-- One dispatch of the fan-out loop: a 2xx response fulfils the promise
(the source resolves `{ platform, success: true }`); a non-2xx response
rejects with reason `"<platform> webhook failed: <status> - <bodyText>"`
(`response.ok` is status 200-299); a network error rejects with its own
message. -/
def dispatchOne (net : Integration → NetResult) (i : Integration) :
    Except String String :=
  match net i with
  | .httpResponse s t =>
    if 200 ≤ s ∧ s < 300 then .ok i.platform
    else .error (i.platform ++ " webhook failed: " ++ toString s ++ " - " ++ t)
  | .networkError m => .error m

/-- Whether a settled dispatch promise is fulfilled
(`r.status === 'fulfilled'`). -/
def isFulfilled : Except String String → Bool
  | .ok _ => true
  | .error _ => false

/-- The rejection reason of a settled dispatch promise, when rejected
(`(f as PromiseRejectedResult).reason?.message`). -/
def rejectionReason : Except String String → Option String
  | .ok _ => none
  | .error m => some m

/-- The database query
`.from('workspace_integrations').eq('workspace_id', wid).eq('is_active', true)`:
rows of the table snapshot matching the workspace and active flag. -/
def queryActiveIntegrations (db : List Integration) (wid : String) :
    List Integration :=
  db.filter (fun r => r.workspace_id == wid && r.is_active)

/-- Behaviour of the persistence collaborator on this invocation: an error
it reports (`fetchError`), or whether it returns a null row list even on
success. -/
structure DbBehavior where
  queryError : Option String
  nullData : Bool
deriving DecidableEq, Repr

/-- Result of the integration query: either the collaborator's error, or
possibly-null data (rows filtered by workspace and active flag). -/
def runQuery (db : List Integration) (beh : DbBehavior) (wid : String) :
    Except String (Option (List Integration)) :=
  match beh.queryError with
  | some e => .error e
  | none => .ok (if beh.nullData then none else some (queryActiveIntegrations db wid))

/-- In-process filter of the handler: integrations whose
`notification_types` contains the requested type. -/
def relevantIntegrations (ty : String) (integrations : List Integration) :
    List Integration :=
  integrations.filter (fun i => i.notification_types.contains ty)

/-- The JSON body of the handler's response: a `{ error }` body, the
zero-integration `{ success, sent, message }` body, or the fan-out
`{ success, sent, total, failures }` body. -/
inductive ResponseBody where
  | errorBody (error : String)
  | noopBody (success : Bool) (sent : Nat) (message : String)
  | fanoutBody (success : Bool) (sent : Nat) (total : Nat) (failures : List String)
deriving DecidableEq, Repr

/-- An HTTP response of the handler. -/
structure Response where
  status : Nat
  body : ResponseBody
deriving DecidableEq, Repr

/-- Observable side effects of one invocation: the workspace ids the
integration query was run for, and the outbound dispatches issued
(integration together with the formatted body POSTed to its webhook URL). -/
structure Trace where
  lookups : List String
  dispatches : List (Integration × FormattedBody)
deriving DecidableEq, Repr

/-- The serve handler of `send-webhook-notification/index.ts` after a
successful JSON parse: validate required fields, query active integrations
for the workspace, filter by notification type, and fan out one POST per
relevant integration, aggregating settled outcomes.  Returns the response
together with the side-effect trace. -/
def handleNotification (now : String) (p : WebhookPayload)
    (db : List Integration) (beh : DbBehavior)
    (net : Integration → NetResult) : Response × Trace :=
  if p.workspace_id = "" ∨ p.notification_type = "" ∨ p.title = "" then
    ({ status := 400,
       body := .errorBody "Missing required fields: workspace_id, notification_type, title" },
     { lookups := [], dispatches := [] })
  else
    match runQuery db beh p.workspace_id with
    | .error _ =>
      ({ status := 500, body := .errorBody "Failed to fetch integrations" },
       { lookups := [p.workspace_id], dispatches := [] })
    | .ok data =>
      let integrations := data.getD []
      let relevant := relevantIntegrations p.notification_type integrations
      if relevant.length = 0 then
        ({ status := 200,
           body := .noopBody true 0 "No active integrations for this notification type" },
         { lookups := [p.workspace_id], dispatches := [] })
      else
        let results := relevant.map (fun i => dispatchOne net i)
        let successful := (results.filter (fun r => isFulfilled r)).length
        let failures := results.filterMap (fun r => rejectionReason r)
        ({ status := 200,
           body := .fanoutBody true successful relevant.length failures },
         { lookups := [p.workspace_id],
           dispatches := relevant.map (fun i => (i, formatForPlatform now p i)) })

/-- C2: a request missing (or with empty) `workspace_id`,
`notification_type` or `title` yields the 400 error response, and the trace
shows zero integration lookups and zero outbound dispatches — regardless of
the database contents, collaborator behaviour and network behaviour. -/
theorem validation_rejects_before_side_effects
    (now : String) (p : WebhookPayload) (db : List Integration)
    (beh : DbBehavior) (net : Integration → NetResult)
    (hv : p.workspace_id = "" ∨ p.notification_type = "" ∨ p.title = "") :
    handleNotification now p db beh net =
      ({ status := 400,
         body := .errorBody "Missing required fields: workspace_id, notification_type, title" },
       { lookups := [], dispatches := [] }) := by
  unfold handleNotification
  rw [if_pos hv]

/-- Witness for C2: a concrete request with an empty `title` is rejected
with 400 and an empty side-effect trace. -/
theorem validation_rejects_before_side_effects_witness :
    ((WebhookPayload.mk "w1" "broadcast" "" "hello" none).workspace_id = "" ∨
     (WebhookPayload.mk "w1" "broadcast" "" "hello" none).notification_type = "" ∨
     (WebhookPayload.mk "w1" "broadcast" "" "hello" none).title = "") ∧
    handleNotification "t0" (WebhookPayload.mk "w1" "broadcast" "" "hello" none)
        [] (DbBehavior.mk none false) (fun _ => .networkError "down") =
      ({ status := 400,
         body := .errorBody "Missing required fields: workspace_id, notification_type, title" },
       { lookups := [], dispatches := [] }) :=
  ⟨Or.inr (Or.inr rfl),
   validation_rejects_before_side_effects "t0" _ [] _ _ (Or.inr (Or.inr rfl))⟩

/-- C4: when the integration query reports an error on a validated request,
the handler answers 500 with the `Failed to fetch integrations` error body,
issues zero outbound dispatches, and in particular never produces the
success/no-op response. -/
theorem fetch_error_returns_500
    (now : String) (p : WebhookPayload) (db : List Integration)
    (beh : DbBehavior) (net : Integration → NetResult)
    (hw : p.workspace_id ≠ "") (ht : p.notification_type ≠ "")
    (hti : p.title ≠ "") (e : String) (he : beh.queryError = some e) :
    (handleNotification now p db beh net).1.status = 500 ∧
    (handleNotification now p db beh net).1.body =
      .errorBody "Failed to fetch integrations" ∧
    (handleNotification now p db beh net).2.dispatches = [] ∧
    ∀ b s m, (handleNotification now p db beh net).1.body ≠
      ResponseBody.noopBody b s m := by
  unfold handleNotification runQuery
  rw [if_neg (fun h => h.elim hw (fun h' => h'.elim ht hti)), he]
  simp

/-- Witness for C4: a concrete validated request whose integration query
fails with a connection error gets the 500 error response and no
dispatches. -/
theorem fetch_error_returns_500_witness :
    ((WebhookPayload.mk "w1" "broadcast" "Hi" "Hello" none).workspace_id ≠ "" ∧
     (WebhookPayload.mk "w1" "broadcast" "Hi" "Hello" none).notification_type ≠ "" ∧
     (WebhookPayload.mk "w1" "broadcast" "Hi" "Hello" none).title ≠ "" ∧
     (DbBehavior.mk (some "connection refused") false).queryError =
       some "connection refused") ∧
    ((handleNotification "t0" (WebhookPayload.mk "w1" "broadcast" "Hi" "Hello" none)
        [] (DbBehavior.mk (some "connection refused") false)
        (fun _ => .httpResponse 200 "")).1.status = 500 ∧
     (handleNotification "t0" (WebhookPayload.mk "w1" "broadcast" "Hi" "Hello" none)
        [] (DbBehavior.mk (some "connection refused") false)
        (fun _ => .httpResponse 200 "")).1.body =
       .errorBody "Failed to fetch integrations" ∧
     (handleNotification "t0" (WebhookPayload.mk "w1" "broadcast" "Hi" "Hello" none)
        [] (DbBehavior.mk (some "connection refused") false)
        (fun _ => .httpResponse 200 "")).2.dispatches = [] ∧
     ∀ b s m, (handleNotification "t0" (WebhookPayload.mk "w1" "broadcast" "Hi" "Hello" none)
        [] (DbBehavior.mk (some "connection refused") false)
        (fun _ => .httpResponse 200 "")).1.body ≠ ResponseBody.noopBody b s m) :=
  ⟨⟨by decide, by decide, by decide, rfl⟩,
   fetch_error_returns_500 "t0" _ [] _ _ (by decide) (by decide) (by decide)
     "connection refused" rfl⟩

/-- C5: a validated request for which the resolver yields zero relevant
integrations gets the 200 success/no-op response with `sent: 0` and the
exact no-op message, and the trace shows a lookup but zero outbound
dispatches. -/
theorem zero_integrations_noop
    (now : String) (p : WebhookPayload) (db : List Integration)
    (beh : DbBehavior) (net : Integration → NetResult)
    (hw : p.workspace_id ≠ "") (ht : p.notification_type ≠ "")
    (hti : p.title ≠ "") (he : beh.queryError = none)
    (hn : beh.nullData = false)
    (hz : relevantIntegrations p.notification_type
      (queryActiveIntegrations db p.workspace_id) = []) :
    handleNotification now p db beh net =
      ({ status := 200,
         body := .noopBody true 0 "No active integrations for this notification type" },
       { lookups := [p.workspace_id], dispatches := [] }) := by
  unfold handleNotification runQuery
  rw [if_neg (fun h => h.elim hw (fun h' => h'.elim ht hti)), he, hn]
  simp [hz]

/-- Witness for C5: a workspace whose only integration is subscribed to a
different notification type yields the no-op success response and no
dispatches. -/
theorem zero_integrations_noop_witness :
    ((WebhookPayload.mk "w1" "broadcast" "Hi" "Hello" none).workspace_id ≠ "" ∧
     (WebhookPayload.mk "w1" "broadcast" "Hi" "Hello" none).notification_type ≠ "" ∧
     (WebhookPayload.mk "w1" "broadcast" "Hi" "Hello" none).title ≠ "" ∧
     (DbBehavior.mk none false).queryError = none ∧
     (DbBehavior.mk none false).nullData = false ∧
     relevantIntegrations "broadcast" (queryActiveIntegrations
       [Integration.mk "A" "w1" "slack" "https://hooks.example/a"
         ["task_assignment"] true] "w1") = []) ∧
    handleNotification "t0" (WebhookPayload.mk "w1" "broadcast" "Hi" "Hello" none)
        [Integration.mk "A" "w1" "slack" "https://hooks.example/a"
          ["task_assignment"] true]
        (DbBehavior.mk none false) (fun _ => .httpResponse 200 "") =
      ({ status := 200,
         body := .noopBody true 0 "No active integrations for this notification type" },
       { lookups := ["w1"], dispatches := [] }) :=
  ⟨⟨by decide, by decide, by decide, rfl, rfl, by decide⟩,
   zero_integrations_noop "t0" _ _ _ _ (by decide) (by decide) (by decide)
     rfl rfl (by decide)⟩

/-- C10: when the query reports no error but returns a null row list, the
handler treats it as zero integrations: it returns the 200 success/no-op
response with `sent: 0` and issues zero outbound dispatches. -/
theorem null_data_treated_as_empty
    (now : String) (p : WebhookPayload) (db : List Integration)
    (beh : DbBehavior) (net : Integration → NetResult)
    (hw : p.workspace_id ≠ "") (ht : p.notification_type ≠ "")
    (hti : p.title ≠ "") (he : beh.queryError = none)
    (hn : beh.nullData = true) :
    handleNotification now p db beh net =
      ({ status := 200,
         body := .noopBody true 0 "No active integrations for this notification type" },
       { lookups := [p.workspace_id], dispatches := [] }) := by
  unfold handleNotification runQuery
  rw [if_neg (fun h => h.elim hw (fun h' => h'.elim ht hti)), he, hn]
  simp [relevantIntegrations]

/-- Witness for C10: a concrete validated request whose query returns null
data yields the no-op success response even though the table snapshot holds
a matching integration. -/
theorem null_data_treated_as_empty_witness :
    ((WebhookPayload.mk "w1" "broadcast" "Hi" "Hello" none).workspace_id ≠ "" ∧
     (WebhookPayload.mk "w1" "broadcast" "Hi" "Hello" none).notification_type ≠ "" ∧
     (WebhookPayload.mk "w1" "broadcast" "Hi" "Hello" none).title ≠ "" ∧
     (DbBehavior.mk none true).queryError = none ∧
     (DbBehavior.mk none true).nullData = true) ∧
    handleNotification "t0" (WebhookPayload.mk "w1" "broadcast" "Hi" "Hello" none)
        [Integration.mk "A" "w1" "slack" "https://hooks.example/a"
          ["broadcast"] true]
        (DbBehavior.mk none true) (fun _ => .httpResponse 200 "") =
      ({ status := 200,
         body := .noopBody true 0 "No active integrations for this notification type" },
       { lookups := ["w1"], dispatches := [] }) :=
  ⟨⟨by decide, by decide, by decide, rfl, rfl⟩,
   null_data_treated_as_empty "t0" _ _ _ _ (by decide) (by decide) (by decide)
     rfl rfl⟩

/-- Helper: on a validated request with a non-erroring, non-null query, the
handler's dispatch trace is exactly one formatted dispatch per relevant
integration, in resolver order. -/
lemma dispatches_eq (now : String) (p : WebhookPayload) (db : List Integration)
    (beh : DbBehavior) (net : Integration → NetResult)
    (hw : p.workspace_id ≠ "") (ht : p.notification_type ≠ "")
    (hti : p.title ≠ "") (he : beh.queryError = none)
    (hn : beh.nullData = false) :
    (handleNotification now p db beh net).2.dispatches =
      (relevantIntegrations p.notification_type
        (queryActiveIntegrations db p.workspace_id)).map
          (fun i => (i, formatForPlatform now p i)) := by
  have hq : runQuery db beh p.workspace_id =
      .ok (some (queryActiveIntegrations db p.workspace_id)) := by
    unfold runQuery
    rw [he, hn]
    rfl
  unfold handleNotification
  rw [if_neg (fun h => h.elim hw (fun h' => h'.elim ht hti)), hq]
  by_cases hz : relevantIntegrations p.notification_type
      (queryActiveIntegrations db p.workspace_id) = []
  · simp [hz]
  · simp [hz, List.length_eq_zero]

/-- Helper: whatever branch the handler takes, any dispatched pair carries
the body produced by `formatForPlatform` for its integration. -/
lemma mem_dispatches_body (now : String) (p : WebhookPayload)
    (db : List Integration) (beh : DbBehavior) (net : Integration → NetResult)
    (i : Integration) (b : FormattedBody)
    (hb : (i, b) ∈ (handleNotification now p db beh net).2.dispatches) :
    b = formatForPlatform now p i := by
  unfold handleNotification at hb
  split at hb
  · simp at hb
  · rcases hq : runQuery db beh p.workspace_id with e | data <;> rw [hq] at hb
    · simp at hb
    · simp only [] at hb
      split at hb
      · simp at hb
      · simp only [List.mem_map] at hb
        obtain ⟨j, _, heq⟩ := hb
        rw [Prod.mk.injEq] at heq
        obtain ⟨rfl, rfl⟩ := heq
        rfl

@[simp] lemma isFulfilled_ok (v : String) : isFulfilled (.ok v) = true := rfl

@[simp] lemma isFulfilled_error (m : String) : isFulfilled (.error m) = false := rfl

@[simp] lemma rejectionReason_ok (v : String) : rejectionReason (.ok v) = none := rfl

@[simp] lemma rejectionReason_error (m : String) :
    rejectionReason (.error m) = some m := rfl

/-- Helper: counting fulfilled dispatches and collecting rejection reasons
partitions the dispatched list. -/
lemma fulfilled_partition {α : Type} (l : List α) (f : α → Except String String) :
    (l.filter (fun a => isFulfilled (f a))).length +
      (l.filterMap (fun a => rejectionReason (f a))).length = l.length := by
  induction l with
  | nil => rfl
  | cons x xs ih =>
    rcases hx : f x with m | v <;>
      simp [List.filter_cons, List.filterMap_cons, hx] <;> omega

/-- C8: for every notification-type string, the Teams hex color is exactly
the hexadecimal rendering of the Discord integer color, the mapping being
broadcast to 3B82F6, task_assignment to 10B981, deadline_reminder to
F59E0B and anything else to 6B7280; and the two formatters consume exactly
this shared mapping. -/
theorem teams_hex_matches_discord_color (now : String) (p : WebhookPayload)
    (ty : String) :
    getColorHexForType ty = natToHex (getColorForType ty) ∧
    getColorForType ty =
      (if ty = "broadcast" then 0x3B82F6
       else if ty = "task_assignment" then 0x10B981
       else if ty = "deadline_reminder" then 0xF59E0B
       else 0x6B7280) ∧
    (formatDiscordMessage now p).embeds.map (fun e => natToHex e.color) =
      [(formatTeamsMessage p).themeColor] := by
  have key : ∀ s : String, getColorHexForType s = natToHex (getColorForType s) := by
    intro s
    unfold getColorHexForType getColorForType
    split_ifs <;> simp [natToHex, natToHexAux, hexDigitChar]
  refine ⟨key ty, rfl, ?_⟩
  simp [formatDiscordMessage, formatTeamsMessage, key p.notification_type]

/-- C7: on a request whose metadata is absent or empty, every formatter
omits all optional elements: Slack has exactly the header and section
blocks (no actions block), the Discord embed has no author, url or fields,
the Teams card's subtitle falls back to "System" with no potentialAction,
and the generic envelope passes the payload through unchanged — all as
total functions. -/
theorem formatters_omit_optional_on_empty_metadata
    (now : String) (p : WebhookPayload)
    (h : p.metadata = none ∨ p.metadata = some Metadata.empty) :
    (formatSlackMessage p).blocks =
      [SlackBlock.header p.title true, SlackBlock.section p.message] ∧
    (formatSlackMessage p).text = p.title ++ ": " ++ p.message ∧
    formatDiscordMessage now p =
      DiscordMessage.mk [DiscordEmbed.mk p.title p.message
        (getColorForType p.notification_type) now none none none] ∧
    formatTeamsMessage p =
      TeamsCard.mk "MessageCard" "http://schema.org/extensions"
        (getColorHexForType p.notification_type) p.title
        [TeamsSection.mk p.title "System" p.message] none ∧
    formatGenericWebhook now p =
      GenericPayload.mk p.notification_type p.title p.message p.metadata now := by
  rcases h with h | h <;>
    simp [formatSlackMessage, formatDiscordMessage, formatTeamsMessage,
      formatGenericWebhook, h, Metadata.empty]

/-- Witness for C7: the formatters at a concrete request with absent
metadata produce the fully optional-free payloads. -/
theorem formatters_omit_optional_witness :
    ((WebhookPayload.mk "w1" "broadcast" "Hi" "Hello all" none).metadata = none ∨
     (WebhookPayload.mk "w1" "broadcast" "Hi" "Hello all" none).metadata =
       some Metadata.empty) ∧
    ((formatSlackMessage (WebhookPayload.mk "w1" "broadcast" "Hi" "Hello all" none)).blocks =
      [SlackBlock.header "Hi" true, SlackBlock.section "Hello all"] ∧
     (formatSlackMessage (WebhookPayload.mk "w1" "broadcast" "Hi" "Hello all" none)).text =
       "Hi" ++ ": " ++ "Hello all" ∧
     formatDiscordMessage "t0" (WebhookPayload.mk "w1" "broadcast" "Hi" "Hello all" none) =
       DiscordMessage.mk [DiscordEmbed.mk "Hi" "Hello all"
         (getColorForType "broadcast") "t0" none none none] ∧
     formatTeamsMessage (WebhookPayload.mk "w1" "broadcast" "Hi" "Hello all" none) =
       TeamsCard.mk "MessageCard" "http://schema.org/extensions"
         (getColorHexForType "broadcast") "Hi"
         [TeamsSection.mk "Hi" "System" "Hello all"] none ∧
     formatGenericWebhook "t0" (WebhookPayload.mk "w1" "broadcast" "Hi" "Hello all" none) =
       GenericPayload.mk "broadcast" "Hi" "Hello all" none "t0") :=
  ⟨Or.inl rfl,
   formatters_omit_optional_on_empty_metadata "t0" _ (Or.inl rfl)⟩

/-- C9: for every integration whose platform is `webhook` or any value other
than `slack`, `discord` or `teams`, the dispatched body is the generic flat
envelope with the notification type, title, message, metadata and the
formatting-time timestamp; every dispatch the handler issues to such an
integration carries exactly that body. -/
theorem generic_default_for_unrecognized
    (now : String) (p : WebhookPayload) (i : Integration)
    (h1 : i.platform ≠ "slack") (h2 : i.platform ≠ "discord")
    (h3 : i.platform ≠ "teams") :
    formatForPlatform now p i = .generic
      (GenericPayload.mk p.notification_type p.title p.message p.metadata now) ∧
    ∀ db beh net b, (i, b) ∈ (handleNotification now p db beh net).2.dispatches →
      b = FormattedBody.generic
        (GenericPayload.mk p.notification_type p.title p.message p.metadata now) := by
  have hfmt : formatForPlatform now p i = .generic
      (GenericPayload.mk p.notification_type p.title p.message p.metadata now) := by
    unfold formatForPlatform
    rw [if_neg h1, if_neg h2, if_neg h3]
    rfl
  exact ⟨hfmt, fun db beh net b hb =>
    (mem_dispatches_body now p db beh net i b hb).trans hfmt⟩

/-- Witness for C9: a concrete `webhook`-platform integration receives the
generic envelope. -/
theorem generic_default_for_unrecognized_witness :
    ((Integration.mk "G" "w1" "webhook" "https://hooks.example/g"
        ["broadcast"] true).platform ≠ "slack" ∧
     (Integration.mk "G" "w1" "webhook" "https://hooks.example/g"
        ["broadcast"] true).platform ≠ "discord" ∧
     (Integration.mk "G" "w1" "webhook" "https://hooks.example/g"
        ["broadcast"] true).platform ≠ "teams") ∧
    (formatForPlatform "t0" (WebhookPayload.mk "w1" "broadcast" "Hi" "Hello" none)
        (Integration.mk "G" "w1" "webhook" "https://hooks.example/g"
          ["broadcast"] true) =
      .generic (GenericPayload.mk "broadcast" "Hi" "Hello" none "t0") ∧
     ∀ db beh net b,
       (Integration.mk "G" "w1" "webhook" "https://hooks.example/g"
          ["broadcast"] true, b) ∈
         (handleNotification "t0" (WebhookPayload.mk "w1" "broadcast" "Hi" "Hello" none)
           db beh net).2.dispatches →
       b = FormattedBody.generic (GenericPayload.mk "broadcast" "Hi" "Hello" none "t0")) :=
  ⟨⟨by decide, by decide, by decide⟩,
   generic_default_for_unrecognized "t0" _ _ (by decide) (by decide) (by decide)⟩

/-- C6: on a validated request with a working query, an integration is
dispatched to if and only if it is a row of the table belonging to the
requested workspace, is active, and subscribes to the requested
notification type. -/
theorem dispatch_iff_active_subscribed
    (now : String) (p : WebhookPayload) (db : List Integration)
    (beh : DbBehavior) (net : Integration → NetResult)
    (hw : p.workspace_id ≠ "") (ht : p.notification_type ≠ "")
    (hti : p.title ≠ "") (he : beh.queryError = none)
    (hn : beh.nullData = false) (i : Integration) :
    (∃ b, (i, b) ∈ (handleNotification now p db beh net).2.dispatches) ↔
      (i ∈ db ∧ i.workspace_id = p.workspace_id ∧ i.is_active = true ∧
       p.notification_type ∈ i.notification_types) := by
  rw [dispatches_eq now p db beh net hw ht hti he hn]
  simp only [relevantIntegrations, queryActiveIntegrations, List.mem_filter,
    List.mem_map, Prod.mk.injEq, Bool.and_eq_true, beq_iff_eq,
    List.contains, List.elem_eq_mem, decide_eq_true_eq]
  constructor
  · rintro ⟨b, a, ⟨⟨ha, hws, hact⟩, hsub⟩, rfl, rfl⟩
    exact ⟨ha, hws, hact, hsub⟩
  · rintro ⟨ha, hws, hact, hsub⟩
    exact ⟨_, i, ⟨⟨ha, hws, hact⟩, hsub⟩, rfl, rfl⟩

/-- Witness for C6: in a concrete table, the active broadcast-subscribed
integration of the workspace is dispatched to, and the iff characterises
exactly it. -/
theorem dispatch_iff_active_subscribed_witness :
    ((WebhookPayload.mk "w1" "broadcast" "Hi" "Hello" none).workspace_id ≠ "" ∧
     (WebhookPayload.mk "w1" "broadcast" "Hi" "Hello" none).notification_type ≠ "" ∧
     (WebhookPayload.mk "w1" "broadcast" "Hi" "Hello" none).title ≠ "" ∧
     (DbBehavior.mk none false).queryError = none ∧
     (DbBehavior.mk none false).nullData = false) ∧
    ((∃ b, (Integration.mk "A" "w1" "slack" "https://hooks.example/a"
        ["broadcast"] true, b) ∈
       (handleNotification "t0" (WebhookPayload.mk "w1" "broadcast" "Hi" "Hello" none)
         [Integration.mk "A" "w1" "slack" "https://hooks.example/a" ["broadcast"] true,
          Integration.mk "B" "w1" "discord" "https://hooks.example/b" ["task_assignment"] true,
          Integration.mk "C" "w1" "teams" "https://hooks.example/c" ["broadcast"] false,
          Integration.mk "D" "w2" "webhook" "https://hooks.example/d" ["broadcast"] true]
         (DbBehavior.mk none false) (fun _ => .httpResponse 200 "ok")).2.dispatches) ↔
      (Integration.mk "A" "w1" "slack" "https://hooks.example/a" ["broadcast"] true ∈
        [Integration.mk "A" "w1" "slack" "https://hooks.example/a" ["broadcast"] true,
         Integration.mk "B" "w1" "discord" "https://hooks.example/b" ["task_assignment"] true,
         Integration.mk "C" "w1" "teams" "https://hooks.example/c" ["broadcast"] false,
         Integration.mk "D" "w2" "webhook" "https://hooks.example/d" ["broadcast"] true] ∧
       (Integration.mk "A" "w1" "slack" "https://hooks.example/a"
         ["broadcast"] true).workspace_id =
         (WebhookPayload.mk "w1" "broadcast" "Hi" "Hello" none).workspace_id ∧
       (Integration.mk "A" "w1" "slack" "https://hooks.example/a"
         ["broadcast"] true).is_active = true ∧
       (WebhookPayload.mk "w1" "broadcast" "Hi" "Hello" none).notification_type ∈
         (Integration.mk "A" "w1" "slack" "https://hooks.example/a"
           ["broadcast"] true).notification_types)) :=
  ⟨⟨by decide, by decide, by decide, rfl, rfl⟩,
   dispatch_iff_active_subscribed "t0" _ _ _ _ (by decide) (by decide) (by decide)
     rfl rfl _⟩

/-- Helper: on a validated request with a working query and a nonempty
relevant list, the handler takes the fan-out branch and returns the
aggregate built from the settled dispatch results. -/
lemma handle_fanout_eq (now : String) (p : WebhookPayload)
    (db : List Integration) (beh : DbBehavior) (net : Integration → NetResult)
    (hw : p.workspace_id ≠ "") (ht : p.notification_type ≠ "")
    (hti : p.title ≠ "") (he : beh.queryError = none)
    (hn : beh.nullData = false)
    (hne : relevantIntegrations p.notification_type
      (queryActiveIntegrations db p.workspace_id) ≠ []) :
    handleNotification now p db beh net =
      ({ status := 200,
         body := ResponseBody.fanoutBody true
           (((relevantIntegrations p.notification_type
               (queryActiveIntegrations db p.workspace_id)).map
                 (fun i => dispatchOne net i)).filter
               (fun r => isFulfilled r)).length
           (relevantIntegrations p.notification_type
             (queryActiveIntegrations db p.workspace_id)).length
           (((relevantIntegrations p.notification_type
               (queryActiveIntegrations db p.workspace_id)).map
                 (fun i => dispatchOne net i)).filterMap
               (fun r => rejectionReason r)) },
       { lookups := [p.workspace_id],
         dispatches := (relevantIntegrations p.notification_type
           (queryActiveIntegrations db p.workspace_id)).map
             (fun i => (i, formatForPlatform now p i)) }) := by
  have hq : runQuery db beh p.workspace_id =
      .ok (some (queryActiveIntegrations db p.workspace_id)) := by
    unfold runQuery
    rw [he, hn]
    rfl
  unfold handleNotification
  rw [if_neg (fun h => h.elim hw (fun h' => h'.elim ht hti)), hq]
  simp [hne, List.length_eq_zero]

/-- C1: on a validated request with at least one relevant integration, the
handler returns HTTP 200 with `success: true`, `sent` the number of
fulfilled dispatches, `total` the number of attempted integrations and
`failures` the rejection reasons of the failed dispatches; sent plus the
failure count equals the total, the dispatch trace is independent of the
network outcomes (no failure aborts or blocks a sibling), and every
relevant integration is dispatched to. -/
theorem fanout_partial_failure_aggregation
    (now : String) (p : WebhookPayload) (db : List Integration)
    (beh : DbBehavior) (net net' : Integration → NetResult)
    (hw : p.workspace_id ≠ "") (ht : p.notification_type ≠ "")
    (hti : p.title ≠ "") (he : beh.queryError = none)
    (hn : beh.nullData = false)
    (hne : relevantIntegrations p.notification_type
      (queryActiveIntegrations db p.workspace_id) ≠ []) :
    (handleNotification now p db beh net).1.status = 200 ∧
    (handleNotification now p db beh net).1.body =
      ResponseBody.fanoutBody true
        ((relevantIntegrations p.notification_type
           (queryActiveIntegrations db p.workspace_id)).filter
             (fun i => isFulfilled (dispatchOne net i))).length
        (relevantIntegrations p.notification_type
          (queryActiveIntegrations db p.workspace_id)).length
        ((relevantIntegrations p.notification_type
           (queryActiveIntegrations db p.workspace_id)).filterMap
             (fun i => rejectionReason (dispatchOne net i))) ∧
    ((relevantIntegrations p.notification_type
       (queryActiveIntegrations db p.workspace_id)).filter
         (fun i => isFulfilled (dispatchOne net i))).length +
      ((relevantIntegrations p.notification_type
         (queryActiveIntegrations db p.workspace_id)).filterMap
           (fun i => rejectionReason (dispatchOne net i))).length =
      (relevantIntegrations p.notification_type
        (queryActiveIntegrations db p.workspace_id)).length ∧
    (handleNotification now p db beh net).2 =
      (handleNotification now p db beh net').2 ∧
    ∀ i ∈ relevantIntegrations p.notification_type
        (queryActiveIntegrations db p.workspace_id),
      (i, formatForPlatform now p i) ∈
        (handleNotification now p db beh net).2.dispatches := by
  have h1 := handle_fanout_eq now p db beh net hw ht hti he hn hne
  have h2 := handle_fanout_eq now p db beh net' hw ht hti he hn hne
  refine ⟨by rw [h1], ?_, fulfilled_partition _ _, by rw [h1, h2], ?_⟩
  · rw [h1]
    simp only [List.filter_map, List.filterMap_map, List.length_map,
      ResponseBody.fanoutBody.injEq]
    refine ⟨?_, ?_, ?_⟩ <;> trivial
  · intro i hi
    rw [h1]
    exact List.mem_map_of_mem _ hi

/-- Witness for C1: workspace `w1` has a Slack integration `A` whose
webhook answers 500 and a Discord integration `B` whose webhook answers
200; the response reports sent 1 of total 2 with A's failure reason, and
both integrations are dispatched to. -/
theorem fanout_partial_failure_aggregation_witness :
    ((WebhookPayload.mk "w1" "broadcast" "Hi" "Hello" none).workspace_id ≠ "" ∧
     (WebhookPayload.mk "w1" "broadcast" "Hi" "Hello" none).notification_type ≠ "" ∧
     (WebhookPayload.mk "w1" "broadcast" "Hi" "Hello" none).title ≠ "" ∧
     (DbBehavior.mk none false).queryError = none ∧
     (DbBehavior.mk none false).nullData = false ∧
     relevantIntegrations "broadcast" (queryActiveIntegrations
       [Integration.mk "A" "w1" "slack" "https://hooks.example/a" ["broadcast"] true,
        Integration.mk "B" "w1" "discord" "https://hooks.example/b" ["broadcast"] true]
       "w1") ≠ []) ∧
    ((handleNotification "t0" (WebhookPayload.mk "w1" "broadcast" "Hi" "Hello" none)
        [Integration.mk "A" "w1" "slack" "https://hooks.example/a" ["broadcast"] true,
         Integration.mk "B" "w1" "discord" "https://hooks.example/b" ["broadcast"] true]
        (DbBehavior.mk none false)
        (fun i => if i.id = "A" then .httpResponse 500 "boom"
                  else .httpResponse 200 "ok")).1.status = 200 ∧
     (handleNotification "t0" (WebhookPayload.mk "w1" "broadcast" "Hi" "Hello" none)
        [Integration.mk "A" "w1" "slack" "https://hooks.example/a" ["broadcast"] true,
         Integration.mk "B" "w1" "discord" "https://hooks.example/b" ["broadcast"] true]
        (DbBehavior.mk none false)
        (fun i => if i.id = "A" then .httpResponse 500 "boom"
                  else .httpResponse 200 "ok")).1.body =
       ResponseBody.fanoutBody true 1 2 ["slack webhook failed: 500 - boom"]) :=
  ⟨⟨by decide, by decide, by decide, rfl, rfl, by decide⟩,
   by
     have h := fanout_partial_failure_aggregation "t0"
       (WebhookPayload.mk "w1" "broadcast" "Hi" "Hello" none)
       [Integration.mk "A" "w1" "slack" "https://hooks.example/a" ["broadcast"] true,
        Integration.mk "B" "w1" "discord" "https://hooks.example/b" ["broadcast"] true]
       (DbBehavior.mk none false)
       (fun i => if i.id = "A" then .httpResponse 500 "boom"
                 else .httpResponse 200 "ok")
       (fun i => if i.id = "A" then .httpResponse 500 "boom"
                 else .httpResponse 200 "ok")
       (by decide) (by decide) (by decide) rfl rfl (by decide)
     refine ⟨h.1, h.2.1.trans ?_⟩
     decide⟩

/-- Spec-side definition, following the spec's words rather than the
source (for comparison with the handler's actual validation message): the
list of required fields missing from a request, in the order
workspace_id, notification_type, title. -/
def specMissingFields (p : WebhookPayload) : List String :=
  (if p.workspace_id = "" then ["workspace_id"] else []) ++
  (if p.notification_type = "" then ["notification_type"] else []) ++
  (if p.title = "" then ["title"] else [])

/-- Counterexample to C3: a request missing only `title` and a request
missing all three fields have different missing-field sets, yet the handler
answers both with the identical fixed message naming all three required
fields — so the 400 response does not list exactly the fields missing from
the request. -/
theorem validation_message_not_specific :
    specMissingFields (WebhookPayload.mk "w1" "broadcast" "" "hello" none) =
      ["title"] ∧
    (handleNotification "t0" (WebhookPayload.mk "w1" "broadcast" "" "hello" none)
        [] (DbBehavior.mk none false) (fun _ => .httpResponse 200 "")).1.body =
      ResponseBody.errorBody
        "Missing required fields: workspace_id, notification_type, title" ∧
    (handleNotification "t0" (WebhookPayload.mk "" "" "" "" none)
        [] (DbBehavior.mk none false) (fun _ => .httpResponse 200 "")).1.body =
      ResponseBody.errorBody
        "Missing required fields: workspace_id, notification_type, title" ∧
    specMissingFields (WebhookPayload.mk "" "" "" "" none) ≠
      specMissingFields (WebhookPayload.mk "w1" "broadcast" "" "hello" none) := by
  refine ⟨by decide, rfl, rfl, by decide⟩

/-- C3 amended: every request failing validation receives the 400 response
with the one fixed error message `Missing required fields: workspace_id,
notification_type, title`, naming all three required fields regardless of
which of them are actually missing. -/
theorem validation_message_fixed
    (now : String) (p : WebhookPayload) (db : List Integration)
    (beh : DbBehavior) (net : Integration → NetResult)
    (hv : p.workspace_id = "" ∨ p.notification_type = "" ∨ p.title = "") :
    (handleNotification now p db beh net).1.status = 400 ∧
    (handleNotification now p db beh net).1.body =
      ResponseBody.errorBody
        "Missing required fields: workspace_id, notification_type, title" := by
  unfold handleNotification
  rw [if_pos hv]
  exact ⟨rfl, rfl⟩

/-- Witness for amended C3: a request missing only its title gets the fixed
message naming all three fields. -/
theorem validation_message_fixed_witness :
    ((WebhookPayload.mk "wX" "task_assignment" "" "m" none).workspace_id = "" ∨
     (WebhookPayload.mk "wX" "task_assignment" "" "m" none).notification_type = "" ∨
     (WebhookPayload.mk "wX" "task_assignment" "" "m" none).title = "") ∧
    ((handleNotification "t1" (WebhookPayload.mk "wX" "task_assignment" "" "m" none)
        [] (DbBehavior.mk none false) (fun _ => .networkError "x")).1.status = 400 ∧
     (handleNotification "t1" (WebhookPayload.mk "wX" "task_assignment" "" "m" none)
        [] (DbBehavior.mk none false) (fun _ => .networkError "x")).1.body =
      ResponseBody.errorBody
        "Missing required fields: workspace_id, notification_type, title") :=
  ⟨Or.inr (Or.inr rfl),
   validation_message_fixed "t1" _ [] _ _ (Or.inr (Or.inr rfl))⟩

end ThittamWebhook
